import Mathlib

/-!
Verification of `cpUtils.executeCommand` from `src/utils/cpUtils.ts`.

The function spawns an external process, accumulates its stdout and its
combined stdout+stderr output, optionally mirrors the output to an output
channel (the "sink"), and resolves or rejects based on the spawn outcome
and exit code.  We embed it as a deterministic function from the inputs
and the process behavior (the sequence of data chunks and the exit code,
or a spawn error) to the ordered list of observable events together with
the final outcome of the returned promise.
-/

namespace cpUtils

/-- Platform-dependent values read by the function: `os.tmpdir()` and `os.EOL`. -/
structure OSEnv where
  tmpdir : String
  EOL : String
deriving DecidableEq

/-- A chunk of data emitted by the child process on one of its two streams. -/
inductive Chunk where
  | stdout (d : String)
  | stderr (d : String)
deriving DecidableEq, Repr

/-- The text carried by a chunk (the result of `data.toString()`). -/
def Chunk.data : Chunk → String
  | .stdout d => d
  | .stderr d => d

/-- How the spawned process behaves: either the spawn fails (the `error`
event fires with an underlying OS error), or the process emits a sequence
of chunks in arrival order and then closes with an exit code. -/
inductive ProcBehavior where
  | spawnError (err : String)
  | exits (chunks : List Chunk) (code : Int)
deriving DecidableEq

/-- The error the promise rejects with: either the underlying spawn error
object passed through `childProc.on('error', reject)` unchanged, or a
`new Error(msg)` constructed in the `close` handler. -/
inductive ExecError where
  | spawnErr (err : String)
  | constructed (msg : String)
deriving DecidableEq

/-- Final outcome of the promise returned by `executeCommand`. -/
inductive Outcome where
  | success (value : String)
  | failure (err : ExecError)
deriving DecidableEq

/-- Observable events of one run, in order: the process spawn (with the
resolved working directory and the shell flag), sink operations
(`appendLine`, `append`, `show`), and the settlement of the promise. -/
inductive Ev where
  | spawn (command : String) (args : List String) (cwd : String) (shell : Bool)
  | sinkAppendLine (line : String)
  | sinkAppend (d : String)
  | sinkShow
  | resolveEv
  | rejectEv (err : ExecError)
deriving DecidableEq

/-- `workingDirectory = workingDirectory || os.tmpdir()`: JavaScript `||`
falls through to `os.tmpdir()` when the argument is `undefined` or the
empty string (both falsy). -/
def resolvedWorkingDirectory (osEnv : OSEnv) (workingDirectory : Option String) : String :=
  match workingDirectory with
  | none => osEnv.tmpdir
  | some s => if s = "" then osEnv.tmpdir else s

/-- One step of the two data handlers: a stdout chunk is concatenated onto
both `cmdOutput` (first component) and `cmdOutputIncludingStderr` (second
component); a stderr chunk only onto the latter. -/
def applyChunk (acc : String × String) (c : Chunk) : String × String :=
  match c with
  | .stdout d => (acc.1 ++ d, acc.2 ++ d)
  | .stderr d => (acc.1, acc.2 ++ d)

/-- The two accumulators after all chunks have arrived, starting from
`('', '')`. -/
def accumulate (chunks : List Chunk) : String × String :=
  chunks.foldl applyChunk ("", "")

/-- Concatenation of the stdout chunks only, in arrival order. -/
def stdoutConcat : List Chunk → String
  | [] => ""
  | .stdout d :: rest => d ++ stdoutConcat rest
  | .stderr _ :: rest => stdoutConcat rest

/-- Concatenation of all chunks (stdout and stderr interleaved), in
arrival order. -/
def combinedConcat : List Chunk → String
  | [] => ""
  | c :: rest => c.data ++ combinedConcat rest

/-- The line logged to the sink right after spawning. -/
def runningLine (command formattedArgs : String) : String :=
  "Running command: \"" ++ command ++ " " ++ formattedArgs ++ "\"..."

/-- The line logged to the sink on exit code zero. -/
def finishedLine (command formattedArgs : String) : String :=
  "Finished running command: \"" ++ command ++ " " ++ formattedArgs ++ "\"."

/-- The generic failure message used when a sink is present. -/
def sinkFailureMessage (command : String) : String :=
  "Failed to run \"" ++ command ++ "\" command. Check output window for more details."

/-- The detailed failure message used when no sink is present. -/
def noSinkFailureMessage (osEnv : OSEnv) (command formattedArgs : String)
    (code : Int) (combined : String) : String :=
  "Command \"" ++ command ++ " " ++ formattedArgs ++ "\" failed with exit code \""
    ++ toString code ++ "\":" ++ osEnv.EOL ++ combined

/-- Shallow embedding of `cpUtils.executeCommand`.  `hasSink` is whether
`outputChannel` is defined.  Returns the ordered event trace and the final
outcome.  The structure mirrors the source: the working directory is
resolved with `||`, `formattedArgs = args.join(' ')`, the process is
spawned with `shell: true`, then the running line is appended to the sink
if present; each arriving chunk updates the accumulators and is appended
raw to the sink; a spawn error rejects with the underlying error; on close
a non-zero code rejects with the sink-dependent message (after `show()`
when a sink is present) and code zero logs the finished line and resolves
with `cmdOutput`. -/
def executeCommand (osEnv : OSEnv) (hasSink : Bool) (workingDirectory : Option String)
    (command : String) (args : List String) (behavior : ProcBehavior) :
    List Ev × Outcome :=
  let wd := resolvedWorkingDirectory osEnv workingDirectory
  let formattedArgs := String.intercalate " " args
  let startEvs : List Ev := Ev.spawn command args wd true ::
    (if hasSink then [Ev.sinkAppendLine (runningLine command formattedArgs)] else [])
  match behavior with
  | .spawnError err =>
      (startEvs ++ [Ev.rejectEv (ExecError.spawnErr err)],
       Outcome.failure (ExecError.spawnErr err))
  | .exits chunks code =>
      let dataEvs : List Ev :=
        if hasSink then chunks.map (fun c => Ev.sinkAppend c.data) else []
      let acc := accumulate chunks
      if code ≠ 0 then
        if hasSink then
          (startEvs ++ dataEvs ++
             [Ev.sinkShow, Ev.rejectEv (ExecError.constructed (sinkFailureMessage command))],
           Outcome.failure (ExecError.constructed (sinkFailureMessage command)))
        else
          (startEvs ++ dataEvs ++
             [Ev.rejectEv (ExecError.constructed
               (noSinkFailureMessage osEnv command formattedArgs code acc.2))],
           Outcome.failure (ExecError.constructed
             (noSinkFailureMessage osEnv command formattedArgs code acc.2)))
      else
        let finishEvs : List Ev :=
          if hasSink then [Ev.sinkAppendLine (finishedLine command formattedArgs)] else []
        (startEvs ++ dataEvs ++ finishEvs ++ [Ev.resolveEv], Outcome.success acc.1)

/-- `a` occurs strictly before `b` in the trace `tr`: the two-element list
`[a, b]` is a (not necessarily contiguous) sublist of `tr`. -/
abbrev eventBefore (tr : List Ev) (a b : Ev) : Prop :=
  List.Sublist [a, b] tr

/-- Folding the chunk handlers from an arbitrary accumulator pair appends
the stdout-only and combined concatenations respectively. -/
theorem foldl_applyChunk (chunks : List Chunk) (a b : String) :
    chunks.foldl applyChunk (a, b) = (a ++ stdoutConcat chunks, b ++ combinedConcat chunks) := by
  induction chunks generalizing a b with
  | nil => simp [stdoutConcat, combinedConcat]
  | cons c rest ih =>
    cases c with
    | stdout d =>
        simp [applyChunk, stdoutConcat, combinedConcat, Chunk.data, ih,
          String.append_assoc]
    | stderr d =>
        simp [applyChunk, stdoutConcat, combinedConcat, Chunk.data, ih,
          String.append_assoc]

/-- The two accumulators equal the stdout-only and combined concatenations. -/
theorem accumulate_eq (chunks : List Chunk) :
    accumulate chunks = (stdoutConcat chunks, combinedConcat chunks) := by
  simpa using foldl_applyChunk chunks "" ""

/-- If the trace ends with the two events `a, b` then `a` occurs before `b`. -/
theorem eventBefore_of_suffix (pre : List Ev) (a b : Ev) (tr : List Ev)
    (h : tr = pre ++ [a, b]) : eventBefore tr a b := by
  subst h
  exact List.sublist_append_right pre [a, b]

/-- C1: for every run whose process terminates with exit code 0, the
promise resolves with exactly the concatenation of all stdout chunks in
arrival order, excluding all stderr content, whatever the interleaving. -/
theorem C1_success_resolves_stdout_only (osEnv : OSEnv) (hasSink : Bool)
    (workingDirectory : Option String) (command : String) (args : List String)
    (chunks : List Chunk) :
    (executeCommand osEnv hasSink workingDirectory command args
        (ProcBehavior.exits chunks 0)).2 = Outcome.success (stdoutConcat chunks) := by
  simp [executeCommand, accumulate_eq]

/-- C2: for every run with no sink and a non-zero exit code, the rejection
carries a constructed error whose message embeds the command, the
space-joined arguments, the exit code, and the full combined stdout+stderr
text in chunk-arrival order, the combined output separated from the header
by the platform line terminator. -/
theorem C2_no_sink_failure_message (osEnv : OSEnv) (workingDirectory : Option String)
    (command : String) (args : List String) (chunks : List Chunk) (code : Int)
    (h : code ≠ 0) :
    (executeCommand osEnv false workingDirectory command args
        (ProcBehavior.exits chunks code)).2
      = Outcome.failure (ExecError.constructed
          ("Command \"" ++ command ++ " " ++ String.intercalate " " args
            ++ "\" failed with exit code \"" ++ toString code ++ "\":"
            ++ osEnv.EOL ++ combinedConcat chunks)) := by
  simp [executeCommand, accumulate_eq, noSinkFailureMessage, h]

/-- Witness for C2 at a concrete input. -/
theorem C2_no_sink_failure_message_witness :
    (2 : Int) ≠ 0 ∧
    (executeCommand ⟨"/tmp", "\n"⟩ false none "foo" ["a", "b"]
        (ProcBehavior.exits [Chunk.stdout "out", Chunk.stderr "boom"] 2)).2
      = Outcome.failure (ExecError.constructed
          ("Command \"" ++ "foo" ++ " " ++ String.intercalate " " ["a", "b"]
            ++ "\" failed with exit code \"" ++ toString (2 : Int) ++ "\":"
            ++ "\n" ++ combinedConcat [Chunk.stdout "out", Chunk.stderr "boom"])) :=
  ⟨by decide,
   C2_no_sink_failure_message ⟨"/tmp", "\n"⟩ none "foo" ["a", "b"]
     [Chunk.stdout "out", Chunk.stderr "boom"] 2 (by decide)⟩

/-- C3: for every run with a sink and a non-zero exit code, the rejection
carries exactly the generic message naming the command and pointing at the
output window, and the sink's `show()` is invoked before the rejection. -/
theorem C3_sink_failure_message_and_show (osEnv : OSEnv) (workingDirectory : Option String)
    (command : String) (args : List String) (chunks : List Chunk) (code : Int)
    (h : code ≠ 0) :
    (executeCommand osEnv true workingDirectory command args
        (ProcBehavior.exits chunks code)).2
      = Outcome.failure (ExecError.constructed
          ("Failed to run \"" ++ command
            ++ "\" command. Check output window for more details."))
    ∧ eventBefore
        (executeCommand osEnv true workingDirectory command args
          (ProcBehavior.exits chunks code)).1
        Ev.sinkShow
        (Ev.rejectEv (ExecError.constructed
          ("Failed to run \"" ++ command
            ++ "\" command. Check output window for more details."))) := by
  constructor
  · simp [executeCommand, sinkFailureMessage, h]
  · refine eventBefore_of_suffix
      ((Ev.spawn command args (resolvedWorkingDirectory osEnv workingDirectory) true ::
          [Ev.sinkAppendLine (runningLine command (String.intercalate " " args))])
        ++ chunks.map (fun c => Ev.sinkAppend c.data)) _ _ _ ?_
    simp [executeCommand, sinkFailureMessage, h]

/-- Witness for C3 at a concrete input. -/
theorem C3_sink_failure_message_and_show_witness :
    (2 : Int) ≠ 0 ∧
    ((executeCommand ⟨"/tmp", "\n"⟩ true none "foo" ["a"]
        (ProcBehavior.exits [Chunk.stderr "boom"] 2)).2
      = Outcome.failure (ExecError.constructed
          ("Failed to run \"" ++ "foo"
            ++ "\" command. Check output window for more details."))
    ∧ eventBefore
        (executeCommand ⟨"/tmp", "\n"⟩ true none "foo" ["a"]
          (ProcBehavior.exits [Chunk.stderr "boom"] 2)).1
        Ev.sinkShow
        (Ev.rejectEv (ExecError.constructed
          ("Failed to run \"" ++ "foo"
            ++ "\" command. Check output window for more details.")))) :=
  ⟨by decide,
   C3_sink_failure_message_and_show ⟨"/tmp", "\n"⟩ none "foo" ["a"]
     [Chunk.stderr "boom"] 2 (by decide)⟩

/-- C4: for every run whose spawn fails, the promise rejects with the
underlying spawn error propagated unchanged, and no constructed
(exit-code-based) error is ever rejected with. -/
theorem C4_spawn_error_propagated (osEnv : OSEnv) (hasSink : Bool)
    (workingDirectory : Option String) (command : String) (args : List String)
    (err : String) :
    (executeCommand osEnv hasSink workingDirectory command args
        (ProcBehavior.spawnError err)).2 = Outcome.failure (ExecError.spawnErr err)
    ∧ ∀ m : String, Ev.rejectEv (ExecError.constructed m)
        ∉ (executeCommand osEnv hasSink workingDirectory command args
            (ProcBehavior.spawnError err)).1 := by
  constructor
  · simp [executeCommand]
  · intro m
    cases hasSink <;> simp [executeCommand]

/-- C5: when the working directory argument is absent, the process is
spawned with its working directory equal to the system temporary
directory. -/
theorem C5_default_working_directory (osEnv : OSEnv) (hasSink : Bool)
    (command : String) (args : List String) (behavior : ProcBehavior) :
    ((executeCommand osEnv hasSink none command args behavior).1).head?
      = some (Ev.spawn command args osEnv.tmpdir true) := by
  cases behavior <;>
    simp [executeCommand, resolvedWorkingDirectory] <;> split_ifs <;> simp

/-- C6: for every run with a sink whose process exits with code 0, the
finished-running line is appended to the sink and the promise resolves
with the stdout-only accumulation, not the combined text. -/
theorem C6_sink_success (osEnv : OSEnv) (workingDirectory : Option String)
    (command : String) (args : List String) (chunks : List Chunk) :
    (Ev.sinkAppendLine ("Finished running command: \"" ++ command ++ " "
          ++ String.intercalate " " args ++ "\".")
        ∈ (executeCommand osEnv true workingDirectory command args
            (ProcBehavior.exits chunks 0)).1)
    ∧ (executeCommand osEnv true workingDirectory command args
          (ProcBehavior.exits chunks 0)).2
        = Outcome.success (stdoutConcat chunks) := by
  constructor
  · simp [executeCommand, finishedLine]
  · simp [executeCommand, accumulate_eq]

/-- C7 counterexample: the claim says the running-command line is appended
to the sink before the process is started, but in a concrete run the
spawn event precedes the running-command line in the trace, so the line
never occurs before the spawn. -/
theorem C7_counterexample :
    ¬ eventBefore
        (executeCommand ⟨"/tmp", "\n"⟩ true none "foo" []
          (ProcBehavior.exits [] 0)).1
        (Ev.sinkAppendLine ("Running command: \"" ++ "foo" ++ " "
          ++ String.intercalate " " [] ++ "\"..."))
        (Ev.spawn "foo" [] "/tmp" true) := by
  decide

/-- C7 amended: for every run with a sink, the running-command line is
appended to the sink immediately after the process is spawned and before
any other sink operation or settlement event. -/
theorem C7_running_line_first_after_spawn (osEnv : OSEnv)
    (workingDirectory : Option String) (command : String) (args : List String)
    (behavior : ProcBehavior) :
    ((executeCommand osEnv true workingDirectory command args behavior).1).take 2
      = [Ev.spawn command args (resolvedWorkingDirectory osEnv workingDirectory) true,
         Ev.sinkAppendLine ("Running command: \"" ++ command ++ " "
           ++ String.intercalate " " args ++ "\"...")] := by
  cases behavior <;>
    simp [executeCommand, runningLine] <;> split_ifs <;> simp

/-- C8: the resolved value is sink-independent: two runs that differ only
in sink presence and see the same chunks and exit code 0 resolve with
the identical value (output is collected even without a sink). -/
theorem C8_sink_independent_result (osEnv : OSEnv) (workingDirectory : Option String)
    (command : String) (args : List String) (chunks : List Chunk) :
    (executeCommand osEnv true workingDirectory command args
        (ProcBehavior.exits chunks 0)).2
      = (executeCommand osEnv false workingDirectory command args
          (ProcBehavior.exits chunks 0)).2 := by
  simp [executeCommand]

/-- C9: passing the empty string as the working directory behaves exactly
like omitting it: the whole run (trace and outcome) is identical, and in
particular the process starts in the system temporary directory, because
the JavaScript `||` treats the empty string as falsy. -/
theorem C9_empty_working_directory (osEnv : OSEnv) (hasSink : Bool)
    (command : String) (args : List String) (behavior : ProcBehavior) :
    executeCommand osEnv hasSink (some "") command args behavior
      = executeCommand osEnv hasSink none command args behavior := by
  simp [executeCommand, resolvedWorkingDirectory]

/-- C10: the sink's `show()` is invoked exactly when a sink is present and
the process closed with a non-zero exit code; never on success and never
on a spawn error. -/
theorem C10_show_only_on_sink_nonzero_exit (osEnv : OSEnv) (hasSink : Bool)
    (workingDirectory : Option String) (command : String) (args : List String)
    (behavior : ProcBehavior) :
    (Ev.sinkShow ∈ (executeCommand osEnv hasSink workingDirectory command args behavior).1)
      ↔ (hasSink = true ∧ ∃ chunks code,
            behavior = ProcBehavior.exits chunks code ∧ code ≠ 0) := by
  cases behavior with
  | spawnError err =>
      cases hasSink <;> simp [executeCommand]
  | exits chunks code =>
      cases hasSink with
      | false => simp only [executeCommand]; split_ifs <;> simp_all
      | true =>
          by_cases hc : code = 0
          · subst hc; simp [executeCommand]
          · simp [executeCommand, hc]
            exact ⟨chunks, code, ⟨rfl, rfl⟩, hc⟩

end cpUtils
